import Mathlib

/-
Shallow embedding of the Bareflank static_interface_pattern repository.

Source files embedded:
  src/static_interface/a.h        -- details::g_count, details::A::foo, details::A::func0
  src/static_interface/helpers.h  -- the binder template `type` and its `details` accessors
  src/static_abstraction/b.cpp    -- B<T>::bar and the two compilation models

The mutable state the example implementation touches is the single
namespace-level global `static volatile int g_count` (a.h line 33); it is
modelled as an explicit state record threaded through the operations.
C++ signed-integer state is modelled as Int (the demo never relies on
overflow, which would be undefined behaviour).
-/

namespace details

/-- Translation of the global mutable state of namespace details in
src/static_interface/a.h: the single counter `static volatile int g_count`
(line 33). This is the only mutable data in the repository. -/
structure DState where
  g_count : Int
deriving DecidableEq, Repr

/-- Translation of class details::A (a.h lines 36-41): it declares the member
functions foo and func0 and has no data members at all, so an A object
carries no per-instance state. -/
structure A
deriving DecidableEq, Repr

/-- Translation of `void A::foo() { g_count += 1; }` (a.h line 38): invoked on
any A object, it increments the shared global counter by one and touches
nothing else. The receiver object is unused because A has no members. -/
def A.foo (_self : A) (s : DState) : DState :=
  { s with g_count := s.g_count + 1 }

/-- Translation of the static member
`static void A::func0() { std::cout << "calling static f0()" << std::endl; }`
(a.h line 40). Standard output is modelled as the string written so far;
`std::endl` writes the newline character (its flush has no textual effect). -/
def A.func0 (out : String) : String :=
  out ++ "calling static f0()" ++ "\n"

end details

/-- Translation of the binder template `type` of src/static_interface/helpers.h
(lines 25-44), specialised to its value content: the binder inherits from the
stateless interface base and privately holds exactly one DETAILS member `d`.
The interface base contributes no fields, so the binder's whole value is `d`. -/
structure type (DETAILS : Type) where
  d : DETAILS
deriving DecidableEq, Repr

/-- Model of a pointer to the interface base subobject of a binder object.
The interface base is a stateless base facet in one-to-one correspondence with
the binder object enclosing it, so such a pointer is identified by the object
identity of that enclosing binder. -/
structure InterfacePtr where
  owner : Nat
deriving DecidableEq, Repr

/-- Model of a pointer to the embedded implementation member `d` of a binder
object, identified by the object identity of the binder whose member it is. -/
structure DetailsPtr where
  owner : Nat
deriving DecidableEq, Repr

/-- Translation of the non-const accessor of helpers.h (lines 37-39):
`constexpr static DETAILS* details(INTERFACE<...> *i)
 { return &(static_cast<type<...> *>(i)->d); }` —
given a pointer to the interface base subobject of a binder object, it casts
back to that same binder object and returns the address of its member `d`. -/
def type.details (i : InterfacePtr) : DetailsPtr :=
  ⟨i.owner⟩

/-- Translation of the const accessor of helpers.h (lines 41-43), identical to
the non-const overload except for constness, which has no value content. -/
def type.detailsConst (i : InterfacePtr) : DetailsPtr :=
  ⟨i.owner⟩

/-- Modelled from the spec: src/static_interface/a_interface.h is not under
src/. Per the spec, each interface operation obtains the embedded
implementation through the privileged `details` accessor, invokes the
corresponding implementation method and propagates its result unchanged; so
the bound interface operation paired with details::A::foo forwards to foo on
the binder's own embedded implementation `d`. -/
def interfaceFoo (self : type details.A) (s : details.DState) : details.DState :=
  self.d.foo s

/-- Modelled from the spec: src/static_interface/a_interface.h is not under
src/. The interface operation paired with the static member details::A::func0
forwards to it unchanged (a static member needs no instance). -/
def interfaceFunc0 (out : String) : String :=
  details.A.func0 out

/-- Translation of class B of src/static_abstraction: the class declaration
lives in b.h, which is not under src/; modelled from the spec ("owns one
implementation instance as a private member") and from the body of bar in
b.cpp, which uses that member as `m_a`: B<T> holds one T instance `m_a`. -/
structure B (T : Type) where
  m_a : T
deriving DecidableEq, Repr

/-- Translation of `template<typename T> void B<T>::bar() { m_a.foo(); }`
(src/static_abstraction/b.cpp lines 24-29), instantiated at T = details::A:
bar performs exactly the call m_a.foo(), which mutates the global state. -/
def B.bar (b : B details.A) (s : details.DState) : details.DState :=
  b.m_a.foo s

/-- Generic form of the same template body B<T>::bar for an implementation
type T whose operation foo may fail: the body is the single call `m_a.foo();`,
so bar performs that call and yields its outcome — success or error —
unchanged, adding no failure handling of its own. -/
def B.barE {σ ε : Type} (fooT : σ → Except ε σ) (s : σ) : Except ε σ :=
  fooT s

/-- bar as obtained under the inclusion compilation model: the template body
of B<T>::bar from b.cpp is visible at the point of use and instantiated there
with T = details::A. -/
def barInclusionModel (b : B details.A) (s : details.DState) : details.DState :=
  b.m_a.foo s

/-- bar as obtained under the explicit-instantiation compilation model (the
commented-out `template class B<A>;` of b.cpp lines 52-57): the very same
template body of B<T>::bar is compiled once at T = A inside b.cpp's
translation unit and linked to by users. -/
def barExplicitInstModel (b : B details.A) (s : details.DState) : details.DState :=
  b.m_a.foo s

/-- Program state for whole-program scenarios: the set of currently allocated
binder objects (object identity paired with the binder value, whose whole
content is its embedded implementation member `d`) together with the shared
global counter details::g_count. -/
structure World where
  binders : List (Nat × type details.A)
  g_count : Int
deriving DecidableEq, Repr

/-- Constructing a binder object with fresh identity n: per helpers.h the
binder's only member is `d`, default-constructed with the binder
(details::A has no data, so its constructed value is A.mk). -/
def constructBinder (n : Nat) (w : World) : World :=
  { w with binders := (n, type.mk details.A.mk) :: w.binders }

/-- Destroying the binder object with identity n removes it, and with it its
embedded implementation member, from the allocated objects. -/
def destroyBinder (n : Nat) (w : World) : World :=
  { w with binders := w.binders.filter fun p => p.1 != n }

/-- Invoking the bound interface operation (forwarding to details::A::foo) on
the binder object with identity n: the interface method reaches the embedded
implementation of that binder and calls foo on it, which increments the
shared global counter. If no binder with that identity is allocated the call
does not exist; the model leaves the state unchanged in that case. -/
def invokeFooVia (n : Nat) (w : World) : World :=
  match w.binders.lookup n with
  | some b => { w with g_count := (b.d.foo ⟨w.g_count⟩).g_count }
  | none => w

/-- The integer counter observable via the binder object with identity n:
details::A holds no per-instance counter, so the only counter any binder's
operations read or write is the shared global details::g_count. -/
def counterVia (_n : Nat) (w : World) : Int :=
  w.g_count

/-- Initial program state of the C2 scenario: two independently constructed
binder objects (identities 1 and 2) and the zero-initialised global counter. -/
def scenarioStart : World :=
  constructBinder 2 (constructBinder 1 ⟨[], 0⟩)

/-- State of the C2 scenario after invoking the counter operation three times
via binder 1. -/
def scenarioEnd : World :=
  invokeFooVia 1 (invokeFooVia 1 (invokeFooVia 1 scenarioStart))

lemma lookup_filter_ne (n : Nat) (l : List (Nat × type details.A)) :
    (l.filter fun p => p.1 != n).lookup n = none := by
  induction l with
  | nil => rfl
  | cons hd tl ih =>
    obtain ⟨k, v⟩ := hd
    by_cases h : k = n
    · simp only [List.filter_cons]
      simpa [h] using ih
    · simp only [List.filter_cons]
      have hk : ((k, v).1 != n) = true := by simp [h]
      rw [if_pos hk]
      have hn : (n == k) = false := by simp [Ne.symm h]
      simpa [List.lookup, hn] using ih

/-- C2 counterexample: in the repository's example binding the counter is the
shared global details::g_count, not per-instance state, so after three calls
of the operation via binder 1 the counter observed via the independently
constructed binder 2 is 3 — not 0 as the claim states. -/
theorem c2_counterexample :
    counterVia 2 scenarioEnd = 3 ∧ ¬ (counterVia 2 scenarioEnd = 0) := by
  decide

/-- C2 (amended): calling the operation three times on one binder instance
leaves the counter at 3, and because the example implementation keeps its
counter in the single shared global details::g_count, the counter observed
via the second, independently constructed binder instance is also 3. -/
theorem c2_amended_shared_counter :
    counterVia 1 scenarioEnd = 3 ∧ counterVia 2 scenarioEnd = 3 := by
  decide

/-- C3 counterexample: invoking the counter operation via binder 1 changes the
counter observable via binder 2, so mutation through one binder does not
leave the state reachable through every other binder unchanged. -/
theorem c3_counterexample :
    counterVia 2 (invokeFooVia 1 scenarioStart) ≠ counterVia 2 scenarioStart := by
  decide

/-- C3 (amended): distinct binder objects have distinct, non-aliased embedded
implementation members, but in the example binding every operation mutates
the shared global counter, so a mutation via any binder changes the counter
observable via every binder (itself and all others alike). -/
theorem c3_amended_distinct_members_shared_state :
    (∀ i j : Nat, i ≠ j → type.details ⟨i⟩ ≠ type.details ⟨j⟩) ∧
    (∀ (n m : Nat) (w : World),
      counterVia m (invokeFooVia n (constructBinder n w)) = counterVia m w + 1) := by
  constructor
  · intro i j hij hEq
    exact hij (congrArg DetailsPtr.owner hEq)
  · intro n m w
    simp [invokeFooVia, constructBinder, counterVia, List.lookup, details.A.foo]

/-- C3 witness: the amended theorem applied at binder identities 1 and 2 and
at a concrete world. -/
theorem c3_amended_witness :
    type.details ⟨1⟩ ≠ type.details ⟨2⟩ ∧
    counterVia 2 (invokeFooVia 1 (constructBinder 1 ⟨[], 0⟩)) = counterVia 2 ⟨[], 0⟩ + 1 :=
  ⟨c3_amended_distinct_members_shared_state.1 1 2 (by decide),
   c3_amended_distinct_members_shared_state.2 1 2 ⟨[], 0⟩⟩

/-- C5: each of the two accessor overloads, given a pointer to the interface
base subobject of a binder object, returns the pointer to that very binder
object's embedded implementation member d, never to any other object's:
both overloads agree, the returned pointer's owner is the argument's owner,
and the accessor is injective. In the model the two overloads are the only
channel defined from the interface to the implementation, mirroring the
friend declaration of helpers.h. -/
theorem c5_details_accessor_same_object :
    (∀ i : InterfacePtr,
      (type.details i).owner = i.owner ∧
      (type.detailsConst i).owner = i.owner ∧
      type.details i = type.detailsConst i) ∧
    (∀ i j : InterfacePtr, type.details i = type.details j → i = j) := by
  constructor
  · intro i
    exact ⟨rfl, rfl, rfl⟩
  · intro i j h
    obtain ⟨a⟩ := i
    obtain ⟨b⟩ := j
    simpa [type.details] using h

/-- C5 witness: the accessor theorem applied at concrete interface-base
pointers, discharging the injectivity hypothesis at an explicit input. -/
theorem c5_details_accessor_witness :
    (type.details ⟨7⟩).owner = 7 ∧ ((⟨5⟩ : InterfacePtr) = ⟨5⟩) :=
  ⟨(c5_details_accessor_same_object.1 ⟨7⟩).1,
   c5_details_accessor_same_object.2 ⟨5⟩ ⟨5⟩ rfl⟩

/-- C6: a binder value consists of exactly its one embedded implementation
member d and nothing else; constructing a binder constructs its embedded
implementation, destroying the binder removes it, and invoking the bound
operation never changes which binder objects exist or which implementation
each contains — only the shared global counter. -/
theorem c6_one_implementation_per_binder :
    (∀ (D : Type) (b : type D), b = type.mk b.d) ∧
    (∀ (n : Nat) (w : World),
      (constructBinder n w).binders.lookup n = some (type.mk details.A.mk)) ∧
    (∀ (n : Nat) (w : World), (destroyBinder n w).binders.lookup n = none) ∧
    (∀ (n : Nat) (w : World), (invokeFooVia n w).binders = w.binders) := by
  refine ⟨fun D b => rfl, fun n w => ?_, fun n w => ?_, fun n w => ?_⟩
  · simp [constructBinder, List.lookup]
  · exact lookup_filter_ne n w.binders
  · rcases h : w.binders.lookup n with _ | b <;> simp [invokeFooVia, h]

/-- C1: invoking the interface operation on a binder has exactly the effect of
invoking foo directly on a standalone implementation instance: B<A>::bar on a
binder equals foo on any details::A object (all such objects are stateless),
and the static_interface binding's operation on a `type` binder equals foo on
its embedded implementation. -/
theorem c1_binder_call_equals_direct_call :
    (∀ (b : B details.A) (a : details.A) (s : details.DState),
      B.bar b s = details.A.foo a s) ∧
    (∀ (t : type details.A) (a : details.A) (s : details.DState),
      interfaceFoo t s = details.A.foo a s) := by
  constructor
  · intro b a s; rfl
  · intro t a s; rfl

/-- C4: every call of details::A::foo, on any instance, increments the single
shared counter details::g_count by exactly one; after a sequence of k calls
distributed over any instances, g_count has increased by exactly k. -/
theorem c4_foo_increments_shared_counter :
    (∀ (a : details.A) (s : details.DState),
      (details.A.foo a s).g_count = s.g_count + 1) ∧
    (∀ (calls : List details.A) (s : details.DState),
      (calls.foldl (fun st a => details.A.foo a st) s).g_count
        = s.g_count + calls.length) := by
  constructor
  · intro a s; rfl
  · intro calls
    induction calls with
    | nil => intro s; simp
    | cons hd tl ih =>
      intro s
      simp only [List.foldl_cons, List.length_cons, ih]
      simp [details.A.foo]
      ring

/-- C10: the effect of details::A::foo does not depend on the instance it is
invoked on: details::A has no per-instance data, so for any two instances and
any starting global state, foo yields the same resulting state. -/
theorem c10_foo_instance_independent :
    ∀ (a1 a2 : details.A) (s : details.DState),
      details.A.foo a1 s = details.A.foo a2 s := by
  intro a1 a2 s; rfl

/-- C7: the binder's forwarding call introduces no failure modes of its own
and does not intercept, wrap or alter an error: for any fallible
implementation operation, bar's outcome is exactly the operation's outcome,
and bar errors precisely when, and with exactly the error with which, the
implementation errors. -/
theorem c7_errors_propagate_unchanged :
    ∀ (σ ε : Type) (fooT : σ → Except ε σ) (s : σ),
      B.barE fooT s = fooT s ∧
      (∀ e : ε, B.barE fooT s = Except.error e ↔ fooT s = Except.error e) := by
  intro σ ε fooT s
  exact ⟨rfl, fun e => Iff.rfl⟩

/-- C8: invoking the static operation details::A::func0 through the bound
interface appends to standard output exactly the fixed message
"calling static f0()" followed by a newline, on every invocation. -/
theorem c8_func0_fixed_message :
    (∀ out : String,
      interfaceFunc0 out = out ++ ("calling static f0()" ++ "\n")) ∧
    ("calling static f0()" ++ "\n" : String) = "calling static f0()\n" := by
  constructor
  · intro out
    simp [interfaceFunc0, details.A.func0, String.append_assoc]
  · rfl

/-- C9: the inclusion compilation model and the explicit-instantiation
compilation model instantiate the same template body of B<T>::bar at
T = details::A, so they produce identical observable behaviour on every
binder value and every program state. -/
theorem c9_compilation_models_equal :
    ∀ (b : B details.A) (s : details.DState),
      barExplicitInstModel b s = barInclusionModel b s := by
  intro b s; rfl
